import Mathlib

/-!
Verification of the tax-estimator core calculations.

The development embeds the two worksheet calculators of the repository
(`tax-core/src/calculations`): the rounding utilities in `common.rs`, the
Estimated Tax Worksheet in `worksheets/est_tax.rs`, and the Self-Employment
Tax Worksheet in `worksheets/self_emp.rs`.  The source's `rust_decimal`
values are modelled as exact rationals (`ℚ`); every arithmetic operation of
the source is exact on the inputs considered, so the embedding is faithful.
-/

/-- Decimal values of the source (`rust_decimal::Decimal`) modelled as exact
rationals. -/
abbrev Decimal := ℚ

namespace common

/-- Embedding of `common::round_half_up`: rounds to exactly two decimal
places with the `MidpointAwayFromZero` strategy of `rust_decimal`
(`value.round_dp_with_strategy(2, RoundingStrategy::MidpointAwayFromZero)`). -/
def round_half_up (value : Decimal) : Decimal :=
  if 0 ≤ value then (⌊value * 100 + 1 / 2⌋ : ℚ) / 100
  else -((⌊-value * 100 + 1 / 2⌋ : ℚ) / 100)

/-- Embedding of `common::max`: `if a > b { a } else { b }`. -/
def max (a b : Decimal) : Decimal :=
  if a > b then a else b

end common

/-- A rational is cent-exact when it is an integer number of hundredths;
this is the shape of every value produced by `common.round_half_up`. -/
def IsCent (x : ℚ) : Prop :=
  ∃ k : ℤ, x = (k : ℚ) / 100

/-- Embedding of `tax_core::TaxBracket`: one progressive-rate segment. -/
structure TaxBracket where
  tax_year : Int
  filing_status_id : Int
  min_income : Decimal
  max_income : Option Decimal
  tax_rate : Decimal
  base_tax : Decimal
deriving DecidableEq

/-- Embedding of `EstimatedTaxWorksheetError`. -/
inductive EstimatedTaxWorksheetError where
  | NoTaxBrackets : EstimatedTaxWorksheetError
  | NoMatchingBracket : Decimal → EstimatedTaxWorksheetError
deriving DecidableEq

/-- Embedding of `EstimatedTaxWorksheetInput`. -/
structure EstimatedTaxWorksheetInput where
  adjusted_gross_income : Decimal
  itemized_deduction : Decimal
  standard_deduction : Decimal
  qbi_deduction : Decimal
  alternative_minimum_tax : Decimal
  credits : Decimal
  self_employment_tax : Decimal
  other_taxes : Decimal
  refundable_credits : Decimal
  prior_year_tax : Decimal
  withholding : Decimal
  is_farmer_or_fisher : Bool
  required_payment_threshold : Decimal
deriving DecidableEq

/-- Embedding of `EstimatedTaxWorksheetResult`. -/
structure EstimatedTaxWorksheetResult where
  taxable_income : Decimal
  calculated_tax : Decimal
  total_estimated_tax : Decimal
  required_annual_payment : Decimal
  underpayment : Decimal
  used_itemized_deduction : Bool
  estimated_payments_required : Bool
deriving DecidableEq

namespace EstimatedTaxWorksheet

/-- Embedding of `EstimatedTaxWorksheet::determine_deduction`. -/
def determine_deduction (itemized standard : Decimal) : Decimal × Bool :=
  if itemized > 0 then (common.round_half_up itemized, true)
  else (common.round_half_up standard, false)

/-- Embedding of `EstimatedTaxWorksheet::total_deductions`. -/
def total_deductions (deduction qbi_deduction : Decimal) : Decimal :=
  common.round_half_up (deduction + qbi_deduction)

/-- Embedding of `EstimatedTaxWorksheet::taxable_income`. -/
def taxable_income (agi total_deductions : Decimal) : Decimal :=
  common.max (common.round_half_up (agi - total_deductions)) 0

/-- The bracket-selection predicate of `EstimatedTaxWorksheet::calculate_tax`:
`taxable_income > b.min_income && (b.max_income.is_none() || taxable_income <= b.max_income.unwrap())`
(the `unwrap_or(Decimal::MAX)` arm is unreachable because the disjunction
short-circuits when `max_income` is absent). -/
def bracketMatches (ti : Decimal) (b : TaxBracket) : Bool :=
  decide (ti > b.min_income) &&
    (match b.max_income with
     | none => true
     | some m => decide (ti ≤ m))

/-- Embedding of `EstimatedTaxWorksheet::calculate_tax`. -/
def calculate_tax (tax_brackets : List TaxBracket) (ti : Decimal) :
    Except EstimatedTaxWorksheetError Decimal :=
  if ti ≤ 0 then .ok 0
  else
    match tax_brackets.find? (bracketMatches ti) with
    | some b =>
        .ok (common.round_half_up (b.base_tax + (ti - b.min_income) * b.tax_rate))
    | none => .error (.NoMatchingBracket ti)

/-- Embedding of `EstimatedTaxWorksheet::total_tax_before_credits`. -/
def total_tax_before_credits (tax amt : Decimal) : Decimal :=
  common.round_half_up (tax + amt)

/-- Embedding of `EstimatedTaxWorksheet::tax_after_credits`. -/
def tax_after_credits (total_tax_before_credits credits : Decimal) : Decimal :=
  common.max (common.round_half_up (total_tax_before_credits - credits)) 0

/-- Embedding of `EstimatedTaxWorksheet::total_tax`. -/
def total_tax (tax_after_credits se_tax other_taxes : Decimal) : Decimal :=
  common.round_half_up (tax_after_credits + se_tax + other_taxes)

/-- Embedding of `EstimatedTaxWorksheet::total_estimated_tax`. -/
def total_estimated_tax (total_tax refundable_credits : Decimal) : Decimal :=
  common.max (common.round_half_up (total_tax - refundable_credits)) 0

/-- Embedding of `EstimatedTaxWorksheet::current_year_factor`
(90%, or two thirds for farmers and fishers). -/
def current_year_factor (total_estimated_tax : Decimal)
    (is_farmer_or_fisher : Bool) : Decimal :=
  common.round_half_up
    (total_estimated_tax * (if is_farmer_or_fisher then 2 / 3 else 90 / 100))

/-- Embedding of `EstimatedTaxWorksheet::required_annual_payment`. -/
def required_annual_payment (current_year_factor prior_year_tax : Decimal) :
    Decimal :=
  min current_year_factor prior_year_tax

/-- Embedding of `EstimatedTaxWorksheet::underpayment`. -/
def underpayment (required_annual_payment withholding : Decimal) : Decimal :=
  common.max (common.round_half_up (required_annual_payment - withholding)) 0

/-- Embedding of `EstimatedTaxWorksheet::threshold_amount`. -/
def threshold_amount (total_estimated_tax withholding : Decimal) : Decimal :=
  common.max (common.round_half_up (total_estimated_tax - withholding)) 0

/-- Embedding of `EstimatedTaxWorksheet::are_estimated_payments_required`. -/
def are_estimated_payments_required (underpayment threshold_amount threshold :
    Decimal) : Bool :=
  decide (underpayment > 0) && decide (threshold_amount ≥ threshold)

/-- Embedding of `EstimatedTaxWorksheet::calculate`, the main worksheet
pipeline. -/
def calculate (tax_brackets : List TaxBracket)
    (input : EstimatedTaxWorksheetInput) :
    Except EstimatedTaxWorksheetError EstimatedTaxWorksheetResult :=
  if tax_brackets.isEmpty then .error .NoTaxBrackets
  else
    let dd := determine_deduction input.itemized_deduction input.standard_deduction
    let td := total_deductions dd.1 input.qbi_deduction
    let ti := taxable_income input.adjusted_gross_income td
    match calculate_tax tax_brackets ti with
    | .error e => .error e
    | .ok calculated_tax =>
        let ttbc := total_tax_before_credits calculated_tax input.alternative_minimum_tax
        let tac := tax_after_credits ttbc input.credits
        let tt := total_tax tac input.self_employment_tax input.other_taxes
        let tet := total_estimated_tax tt input.refundable_credits
        let cyf := current_year_factor tet input.is_farmer_or_fisher
        let rap := required_annual_payment cyf input.prior_year_tax
        let up := underpayment rap input.withholding
        let ta := threshold_amount tet input.withholding
        let epr := are_estimated_payments_required up ta input.required_payment_threshold
        .ok { taxable_income := ti
              calculated_tax := calculated_tax
              total_estimated_tax := tet
              required_annual_payment := rap
              underpayment := up
              used_itemized_deduction := dd.2
              estimated_payments_required := epr }

end EstimatedTaxWorksheet

/-- Embedding of `SeWorksheetError`. -/
inductive SeWorksheetError where
  | InvalidNetEarningsFactor : Decimal → SeWorksheetError
  | InvalidSocialSecurityRate : Decimal → SeWorksheetError
  | InvalidMedicareRate : Decimal → SeWorksheetError
  | InvalidDeductionFactor : Decimal → SeWorksheetError
  | InvalidSsWageMax : Decimal → SeWorksheetError
  | InvalidMinSeThreshold : Decimal → SeWorksheetError
deriving DecidableEq

/-- Embedding of `SeWorksheetConfig`. -/
structure SeWorksheetConfig where
  ss_wage_max : Decimal
  ss_tax_rate : Decimal
  medicare_tax_rate : Decimal
  net_earnings_factor : Decimal
  deduction_factor : Decimal
  min_se_threshold : Decimal
deriving DecidableEq

/-- Embedding of `SeWorksheetConfig::validate`: the six range checks in
source order, failing fast on the first violation. -/
def SeWorksheetConfig.validate (c : SeWorksheetConfig) :
    Except SeWorksheetError Unit :=
  if c.net_earnings_factor ≤ 0 ∨ c.net_earnings_factor > 1 then
    .error (.InvalidNetEarningsFactor c.net_earnings_factor)
  else if c.ss_tax_rate < 0 ∨ c.ss_tax_rate > 1 then
    .error (.InvalidSocialSecurityRate c.ss_tax_rate)
  else if c.medicare_tax_rate < 0 ∨ c.medicare_tax_rate > 1 then
    .error (.InvalidMedicareRate c.medicare_tax_rate)
  else if c.deduction_factor < 0 ∨ c.deduction_factor > 1 then
    .error (.InvalidDeductionFactor c.deduction_factor)
  else if c.ss_wage_max ≤ 0 then
    .error (.InvalidSsWageMax c.ss_wage_max)
  else if c.min_se_threshold < 0 then
    .error (.InvalidMinSeThreshold c.min_se_threshold)
  else
    .ok ()

/-- Embedding of `SeWorksheetResult`. -/
structure SeWorksheetResult where
  combined_se_income : Decimal
  net_earnings : Decimal
  medicare_tax : Decimal
  ss_taxable_earnings : Decimal
  social_security_tax : Decimal
  self_employment_tax : Decimal
  se_tax_deduction : Decimal
  below_threshold : Bool
deriving DecidableEq

/-- Embedding of `SeWorksheetResult::below_threshold` (the associated
constructor producing the zero-valued result). -/
def SeWorksheetResult.belowThreshold (combined_se_income : Decimal) :
    SeWorksheetResult :=
  { combined_se_income := combined_se_income
    net_earnings := 0
    medicare_tax := 0
    ss_taxable_earnings := 0
    social_security_tax := 0
    self_employment_tax := 0
    se_tax_deduction := 0
    below_threshold := true }

namespace SeWorksheet

/-- Embedding of `SeWorksheet::combined_se_income` (Lines 1a, 1b, 2); the
`warn!` in the source is logging only. -/
def combined_se_income (se_income crp_payments : Decimal) : Decimal :=
  common.round_half_up (se_income + crp_payments)

/-- Embedding of `SeWorksheet::net_earnings_from_self_employment` (Line 3). -/
def net_earnings_from_self_employment (c : SeWorksheetConfig)
    (combined_income : Decimal) : Decimal :=
  common.round_half_up (combined_income * c.net_earnings_factor)

/-- Embedding of `SeWorksheet::medicare_tax` (Line 4). -/
def medicare_tax (c : SeWorksheetConfig) (net_earnings : Decimal) : Decimal :=
  if net_earnings ≤ 0 then 0
  else common.round_half_up (net_earnings * c.medicare_tax_rate)

/-- Embedding of `SeWorksheet::remaining_ss_wage_base` (Line 7). -/
def remaining_ss_wage_base (c : SeWorksheetConfig) (wages : Decimal) :
    Decimal :=
  if c.ss_wage_max - wages ≤ 0 then 0
  else common.round_half_up (c.ss_wage_max - wages)

/-- Embedding of `SeWorksheet::ss_taxable_earnings` (Line 8). -/
def ss_taxable_earnings (net_earnings remaining_ss_base : Decimal) : Decimal :=
  if net_earnings ≤ 0 then 0
  else common.round_half_up (min net_earnings remaining_ss_base)

/-- Embedding of `SeWorksheet::social_security_tax` (Line 9). -/
def social_security_tax (c : SeWorksheetConfig)
    (ss_taxable_earnings : Decimal) : Decimal :=
  common.round_half_up (ss_taxable_earnings * c.ss_tax_rate)

/-- Embedding of `SeWorksheet::total_self_employment_tax` (Line 10). -/
def total_self_employment_tax (medicare_tax social_security_tax : Decimal) :
    Decimal :=
  common.round_half_up (medicare_tax + social_security_tax)

/-- Embedding of `SeWorksheet::se_tax_deduction` (Line 11). -/
def se_tax_deduction (c : SeWorksheetConfig)
    (self_employment_tax : Decimal) : Decimal :=
  common.round_half_up (self_employment_tax * c.deduction_factor)

/-- Embedding of `SeWorksheet::calculate`, the main SE pipeline. -/
def calculate (c : SeWorksheetConfig)
    (se_income crp_payments wages : Decimal) :
    Except SeWorksheetError SeWorksheetResult :=
  match c.validate with
  | .error e => .error e
  | .ok _ =>
      let combined_income := combined_se_income se_income crp_payments
      if combined_income ≤ c.min_se_threshold then
        .ok (SeWorksheetResult.belowThreshold combined_income)
      else
        let net_earnings := net_earnings_from_self_employment c combined_income
        let mt := medicare_tax c net_earnings
        let remaining_ss_base := remaining_ss_wage_base c wages
        let sste := ss_taxable_earnings net_earnings remaining_ss_base
        let sst := social_security_tax c sste
        let set := total_self_employment_tax mt sst
        let ded := se_tax_deduction c set
        .ok { combined_se_income := combined_income
              net_earnings := net_earnings
              medicare_tax := mt
              ss_taxable_earnings := sste
              social_security_tax := sst
              self_employment_tax := set
              se_tax_deduction := ded
              below_threshold := false }

end SeWorksheet

/-- Marginal-formula helper: the unrounded tax read off a bracket,
`base_tax + (ti - min_income) * tax_rate`, as in
`EstimatedTaxWorksheet::calculate_tax`. -/
def bracketTax (b : TaxBracket) (ti : Decimal) : Decimal :=
  b.base_tax + (ti - b.min_income) * b.tax_rate

/-- The bracket-table invariant of the spec: brackets form a contiguous,
non-overlapping, ascending partition of the half-line starting at `lo`, with
non-negative marginal rates, `base_tax` equal to the running cumulative tax
`base` at each bracket's `min_income`, and the single unbounded bracket last. -/
def BracketChain : ℚ → ℚ → List TaxBracket → Prop
  | _, _, [] => False
  | lo, base, b :: rest =>
      b.min_income = lo ∧ b.base_tax = base ∧ 0 ≤ b.tax_rate ∧
      (match rest with
       | [] => b.max_income = none
       | _ :: _ =>
           ∃ m, b.max_income = some m ∧ lo < m ∧
             BracketChain m (base + (m - lo) * b.tax_rate) rest)

/-- The taxable income computed by the first pipeline stages of
`EstimatedTaxWorksheet::calculate` from the raw input. -/
def pipe_ti (input : EstimatedTaxWorksheetInput) : Decimal :=
  EstimatedTaxWorksheet.taxable_income input.adjusted_gross_income
    (EstimatedTaxWorksheet.total_deductions
      (EstimatedTaxWorksheet.determine_deduction input.itemized_deduction
        input.standard_deduction).1
      input.qbi_deduction)

/-- The result record assembled by `EstimatedTaxWorksheet::calculate` once the
bracket lookup has produced `calculated_tax`. -/
def pipe_result (input : EstimatedTaxWorksheetInput) (calculated_tax : Decimal) :
    EstimatedTaxWorksheetResult :=
  let tac := EstimatedTaxWorksheet.tax_after_credits
    (EstimatedTaxWorksheet.total_tax_before_credits calculated_tax
      input.alternative_minimum_tax)
    input.credits
  let tet := EstimatedTaxWorksheet.total_estimated_tax
    (EstimatedTaxWorksheet.total_tax tac input.self_employment_tax
      input.other_taxes)
    input.refundable_credits
  let rap := EstimatedTaxWorksheet.required_annual_payment
    (EstimatedTaxWorksheet.current_year_factor tet input.is_farmer_or_fisher)
    input.prior_year_tax
  let up := EstimatedTaxWorksheet.underpayment rap input.withholding
  let ta := EstimatedTaxWorksheet.threshold_amount tet input.withholding
  { taxable_income := pipe_ti input
    calculated_tax := calculated_tax
    total_estimated_tax := tet
    required_annual_payment := rap
    underpayment := up
    used_itemized_deduction :=
      (EstimatedTaxWorksheet.determine_deduction input.itemized_deduction
        input.standard_deduction).2
    estimated_payments_required :=
      EstimatedTaxWorksheet.are_estimated_payments_required up ta
        input.required_payment_threshold }

/-- Modelled from the spec (for claim C2 only): the deduction-selection rule
as the spec words it, with each candidate rounded to the cent before the
comparison/selection is made. -/
def determine_deduction_speced (itemized standard : Decimal) : Decimal × Bool :=
  if common.round_half_up itemized > 0 then (common.round_half_up itemized, true)
  else (common.round_half_up standard, false)

/-- A one-bracket table (rate 10%, unbounded) used to instantiate theorems on
concrete inputs. -/
def singleBracket : TaxBracket :=
  { tax_year := 2025, filing_status_id := 1, min_income := 0, max_income := none
    tax_rate := 1 / 10, base_tax := 0 }

/-- Lower bracket of a two-bracket example table: income 0 to 10 at 10%. -/
def lowBracket : TaxBracket :=
  { tax_year := 2025, filing_status_id := 1, min_income := 0
    max_income := some 10, tax_rate := 1 / 10, base_tax := 0 }

/-- Top bracket of the two-bracket example table: income above 10 at 20%,
cumulative tax 1 at its lower bound. -/
def topBracket : TaxBracket :=
  { tax_year := 2025, filing_status_id := 1, min_income := 10, max_income := none
    tax_rate := 2 / 10, base_tax := 1 }

/-- An all-zero estimated-tax input used to instantiate theorems. -/
def zeroInput : EstimatedTaxWorksheetInput :=
  { adjusted_gross_income := 0, itemized_deduction := 0, standard_deduction := 0
    qbi_deduction := 0, alternative_minimum_tax := 0, credits := 0
    self_employment_tax := 0, other_taxes := 0, refundable_credits := 0
    prior_year_tax := 0, withholding := 0, is_farmer_or_fisher := false
    required_payment_threshold := 0 }

/-- The 2025 SE worksheet configuration from the source's documentation. -/
def cfg2025 : SeWorksheetConfig :=
  { ss_wage_max := 176100, ss_tax_rate := 124 / 1000
    medicare_tax_rate := 29 / 1000, net_earnings_factor := 9235 / 10000
    deduction_factor := 50 / 100, min_se_threshold := 400 }

/-- A configuration with two fields out of range (negative wage maximum and
negative threshold), to observe which error the fixed check order reports. -/
def doublyInvalidCfg : SeWorksheetConfig :=
  { ss_wage_max := -1000, ss_tax_rate := 124 / 1000
    medicare_tax_rate := 29 / 1000, net_earnings_factor := 9235 / 10000
    deduction_factor := 50 / 100, min_se_threshold := -400 }

/-- A small valid SE configuration with simple rates, used to instantiate
theorems on concrete inputs. -/
def simpleSeCfg : SeWorksheetConfig :=
  { ss_wage_max := 100000, ss_tax_rate := 1 / 10, medicare_tax_rate := 1 / 10
    net_earnings_factor := 1 / 2, deduction_factor := 1 / 2
    min_se_threshold := 400 }
theorem floor_half_rat : ⌊(1 / 2 : ℚ)⌋ = 0 :=
  Int.floor_eq_iff.mpr (by norm_num)

theorem round_half_up_intDiv (k : ℤ) :
    common.round_half_up ((k : ℚ) / 100) = (k : ℚ) / 100 := by
  unfold common.round_half_up
  by_cases h : (0 : ℚ) ≤ (k : ℚ) / 100
  · rw [if_pos h]
    have harg : (k : ℚ) / 100 * 100 + 1 / 2 = (k : ℚ) + 1 / 2 := by ring
    rw [harg, Int.floor_int_add, floor_half_rat]
    push_cast
    ring
  · rw [if_neg h]
    have harg : -((k : ℚ) / 100) * 100 + 1 / 2 = ((-k : ℤ) : ℚ) + 1 / 2 := by
      push_cast; ring
    rw [harg, Int.floor_int_add, floor_half_rat]
    push_cast
    ring

theorem isCent_round_half_up (x : ℚ) : IsCent (common.round_half_up x) := by
  unfold common.round_half_up
  by_cases h : (0 : ℚ) ≤ x
  · rw [if_pos h]
    exact ⟨⌊x * 100 + 1 / 2⌋, rfl⟩
  · rw [if_neg h]
    exact ⟨-⌊-x * 100 + 1 / 2⌋, by push_cast; ring⟩

theorem round_half_up_of_isCent {x : ℚ} (h : IsCent x) :
    common.round_half_up x = x := by
  obtain ⟨k, rfl⟩ := h
  exact round_half_up_intDiv k

theorem isCent_zero : IsCent 0 :=
  ⟨0, by norm_num⟩

theorem isCent_add {x y : ℚ} (hx : IsCent x) (hy : IsCent y) :
    IsCent (x + y) := by
  obtain ⟨k, rfl⟩ := hx
  obtain ⟨l, rfl⟩ := hy
  exact ⟨k + l, by push_cast; ring⟩

theorem round_half_up_mono {x y : ℚ} (h : x ≤ y) :
    common.round_half_up x ≤ common.round_half_up y := by
  unfold common.round_half_up
  by_cases hx : (0 : ℚ) ≤ x
  · have hy : (0 : ℚ) ≤ y := le_trans hx h
    rw [if_pos hx, if_pos hy]
    have hfl : ⌊x * 100 + 1 / 2⌋ ≤ ⌊y * 100 + 1 / 2⌋ :=
      Int.floor_mono (by linarith)
    have : (⌊x * 100 + 1 / 2⌋ : ℚ) ≤ (⌊y * 100 + 1 / 2⌋ : ℚ) := by
      exact_mod_cast hfl
    linarith
  · by_cases hy : (0 : ℚ) ≤ y
    · rw [if_neg hx, if_pos hy]
      have h1 : (0 : ℤ) ≤ ⌊-x * 100 + 1 / 2⌋ :=
        Int.floor_nonneg.mpr (by push_neg at hx; linarith)
      have h2 : (0 : ℤ) ≤ ⌊y * 100 + 1 / 2⌋ :=
        Int.floor_nonneg.mpr (by linarith)
      have h1q : (0 : ℚ) ≤ (⌊-x * 100 + 1 / 2⌋ : ℚ) := by exact_mod_cast h1
      have h2q : (0 : ℚ) ≤ (⌊y * 100 + 1 / 2⌋ : ℚ) := by exact_mod_cast h2
      have hleft : (0 : ℚ) ≤ (⌊-x * 100 + 1 / 2⌋ : ℚ) / 100 := by positivity
      have hright : (0 : ℚ) ≤ (⌊y * 100 + 1 / 2⌋ : ℚ) / 100 := by positivity
      linarith
    · rw [if_neg hx, if_neg hy]
      have hfl : ⌊-y * 100 + 1 / 2⌋ ≤ ⌊-x * 100 + 1 / 2⌋ :=
      Int.floor_mono (by linarith)
      have : (⌊-y * 100 + 1 / 2⌋ : ℚ) ≤ (⌊-x * 100 + 1 / 2⌋ : ℚ) := by
        exact_mod_cast hfl
      linarith

theorem round_half_up_zero : common.round_half_up 0 = 0 := by
  simpa using round_half_up_intDiv 0

theorem round_half_up_nonneg {x : ℚ} (h : 0 ≤ x) :
    0 ≤ common.round_half_up x := by
  have := round_half_up_mono h
  rwa [round_half_up_zero] at this

theorem round_half_up_close (x : ℚ) :
    |x - common.round_half_up x| ≤ 1 / 200 := by
  unfold common.round_half_up
  by_cases h : (0 : ℚ) ≤ x
  · rw [if_pos h]
    have h1 : (⌊x * 100 + 1 / 2⌋ : ℚ) ≤ x * 100 + 1 / 2 := Int.floor_le _
    have h2 : x * 100 + 1 / 2 < (⌊x * 100 + 1 / 2⌋ : ℚ) + 1 :=
      Int.lt_floor_add_one _
    rw [abs_le]
    constructor <;> [linarith; linarith]
  · rw [if_neg h]
    have h1 : (⌊-x * 100 + 1 / 2⌋ : ℚ) ≤ -x * 100 + 1 / 2 := Int.floor_le _
    have h2 : -x * 100 + 1 / 2 < (⌊-x * 100 + 1 / 2⌋ : ℚ) + 1 :=
      Int.lt_floor_add_one _
    rw [abs_le]
    constructor <;> [linarith; linarith]

theorem round_half_up_midpoint {x : ℚ}
    (h : |x - common.round_half_up x| = 1 / 200) :
    |common.round_half_up x| = |x| + 1 / 200 := by
  unfold common.round_half_up at *
  by_cases hx : (0 : ℚ) ≤ x
  · rw [if_pos hx] at *
    have h1 : (⌊x * 100 + 1 / 2⌋ : ℚ) ≤ x * 100 + 1 / 2 := Int.floor_le _
    have h2 : x * 100 + 1 / 2 < (⌊x * 100 + 1 / 2⌋ : ℚ) + 1 :=
      Int.lt_floor_add_one _
    have hcase := abs_eq (by norm_num : (0 : ℚ) ≤ 1 / 200) |>.mp h
    rcases hcase with hc | hc
    · linarith
    · have hres : (⌊x * 100 + 1 / 2⌋ : ℚ) / 100 = x + 1 / 200 := by linarith
      rw [hres, abs_of_nonneg hx, abs_of_nonneg (by linarith : (0 : ℚ) ≤ x + 1 / 200)]
  · rw [if_neg hx] at *
    push_neg at hx
    have h1 : (⌊-x * 100 + 1 / 2⌋ : ℚ) ≤ -x * 100 + 1 / 2 := Int.floor_le _
    have h2 : -x * 100 + 1 / 2 < (⌊-x * 100 + 1 / 2⌋ : ℚ) + 1 :=
      Int.lt_floor_add_one _
    have hcase := abs_eq (by norm_num : (0 : ℚ) ≤ 1 / 200) |>.mp h
    rcases hcase with hc | hc
    · have hres : -((⌊-x * 100 + 1 / 2⌋ : ℚ) / 100) = x - 1 / 200 := by linarith
      rw [hres, abs_of_neg hx, abs_of_neg (by linarith : x - 1 / 200 < 0)]
      ring
    · linarith

theorem common_max_left_nonneg (x y : ℚ) (h : 0 ≤ y) : 0 ≤ common.max x y := by
  unfold common.max
  split
  · linarith
  · exact h

theorem common_max_mono_left {x y : ℚ} (z : ℚ) (h : x ≤ y) :
    common.max x z ≤ common.max y z := by
  unfold common.max
  split <;> split <;> linarith


theorem round_half_up_eq_of_nonneg (x : ℚ) (k : ℤ) (hx : 0 ≤ x)
    (h1 : (k : ℚ) ≤ x * 100 + 1 / 2) (h2 : x * 100 + 1 / 2 < (k : ℚ) + 1) :
    common.round_half_up x = (k : ℚ) / 100 := by
  unfold common.round_half_up
  rw [if_pos hx]
  have hfl : ⌊x * 100 + 1 / 2⌋ = k :=
    Int.floor_eq_iff.mpr ⟨h1, by linarith⟩
  rw [hfl]

theorem round_half_up_neg (x : ℚ) :
    common.round_half_up (-x) = -common.round_half_up x := by
  rcases lt_trichotomy x 0 with h | h | h
  · unfold common.round_half_up
    rw [if_pos (by linarith : (0 : ℚ) ≤ -x), if_neg (by linarith : ¬(0 : ℚ) ≤ x)]
    rw [neg_neg]
  · subst h
    rw [neg_zero, round_half_up_zero, neg_zero]
  · unfold common.round_half_up
    rw [if_neg (by linarith : ¬(0 : ℚ) ≤ -x), if_pos (by linarith : (0 : ℚ) ≤ x)]
    rw [neg_neg]

theorem round_half_up_int (n : ℤ) : common.round_half_up (n : ℚ) = (n : ℚ) := by
  have h := round_half_up_intDiv (100 * n)
  have e : ((100 * n : ℤ) : ℚ) / 100 = (n : ℚ) := by push_cast; ring
  rw [e] at h
  exact h

theorem find_first_of {α : Type} (p : α → Bool) (l : List α) (i : ℕ)
    (hi : i < l.length) (hmatch : p (l.get ⟨i, hi⟩) = true)
    (hprior : ∀ j : ℕ, ∀ hj : j < i, p (l.get ⟨j, Nat.lt_trans hj hi⟩) = false) :
    l.find? p = some (l.get ⟨i, hi⟩) := by
  induction l generalizing i with
  | nil => exact absurd hi (Nat.not_lt_zero i)
  | cons a t ih =>
    cases i with
    | zero =>
        simp only [List.get] at hmatch ⊢
        rw [List.find?_cons_of_pos _ hmatch]
    | succ n =>
        have hpa : p a = false := hprior 0 (Nat.succ_pos n)
        rw [List.find?_cons_of_neg _ (by simp [hpa])]
        have hn : n < t.length := Nat.lt_of_succ_lt_succ hi
        have hm : p (t.get ⟨n, hn⟩) = true := hmatch
        exact ih n hn hm (fun j hj => hprior (j + 1) (Nat.succ_lt_succ hj))

theorem calculate_eq (tax_brackets : List TaxBracket)
    (input : EstimatedTaxWorksheetInput) :
    EstimatedTaxWorksheet.calculate tax_brackets input =
      (if tax_brackets.isEmpty then .error .NoTaxBrackets
       else
         match EstimatedTaxWorksheet.calculate_tax tax_brackets (pipe_ti input) with
         | .error e => .error e
         | .ok ct => .ok (pipe_result input ct)) := rfl

theorem validate_ok_iff (c : SeWorksheetConfig) :
    c.validate = .ok () ↔
      (0 < c.net_earnings_factor ∧ c.net_earnings_factor ≤ 1 ∧
       0 ≤ c.ss_tax_rate ∧ c.ss_tax_rate ≤ 1 ∧
       0 ≤ c.medicare_tax_rate ∧ c.medicare_tax_rate ≤ 1 ∧
       0 ≤ c.deduction_factor ∧ c.deduction_factor ≤ 1 ∧
       0 < c.ss_wage_max ∧ 0 ≤ c.min_se_threshold) := by
  unfold SeWorksheetConfig.validate
  split_ifs with h1 h2 h3 h4 h5 h6
  · exact iff_of_false (by simp)
      (by rintro ⟨a1, a2, -⟩; rcases h1 with h | h <;> linarith)
  · exact iff_of_false (by simp)
      (by rintro ⟨-, -, a3, a4, -⟩; rcases h2 with h | h <;> linarith)
  · exact iff_of_false (by simp)
      (by rintro ⟨-, -, -, -, a5, a6, -⟩; rcases h3 with h | h <;> linarith)
  · exact iff_of_false (by simp)
      (by rintro ⟨-, -, -, -, -, -, a7, a8, -⟩; rcases h4 with h | h <;> linarith)
  · exact iff_of_false (by simp)
      (by rintro ⟨-, -, -, -, -, -, -, -, a9, -⟩; linarith)
  · exact iff_of_false (by simp)
      (by rintro ⟨-, -, -, -, -, -, -, -, -, a10⟩; linarith)
  · push_neg at h1 h2 h3 h4 h5 h6
    exact iff_of_true rfl
      ⟨h1.1, h1.2, h2.1, h2.2, h3.1, h3.2, h4.1, h4.2, h5, h6⟩

theorem bracketChain_find (bs : List TaxBracket) :
    ∀ lo base : ℚ, BracketChain lo base bs → ∀ ti : ℚ, lo < ti →
      ∃ br, bs.find? (EstimatedTaxWorksheet.bracketMatches ti) = some br ∧
        base ≤ bracketTax br ti := by
  induction bs with
  | nil => intro lo base h; exact absurd h (by simp [BracketChain])
  | cons b rest ih =>
    intro lo base h ti hti
    simp only [BracketChain] at h
    obtain ⟨hmin, hbase, hrate, hrest⟩ := h
    cases rest with
    | nil =>
        have hmax : b.max_income = none := hrest
        have hmatch : EstimatedTaxWorksheet.bracketMatches ti b = true := by
          simp [EstimatedTaxWorksheet.bracketMatches, hmax, hmin, hti]
        refine ⟨b, List.find?_cons_of_pos _ hmatch, ?_⟩
        have hmul : 0 ≤ (ti - lo) * b.tax_rate :=
          mul_nonneg (by linarith) hrate
        simp only [bracketTax, hbase, hmin]
        linarith
    | cons r rs =>
        have hex : ∃ m, b.max_income = some m ∧ lo < m ∧
            BracketChain m (base + (m - lo) * b.tax_rate) (r :: rs) := hrest
        obtain ⟨m, hmax, hlom, hchain⟩ := hex
        by_cases him : ti ≤ m
        · have hmatch : EstimatedTaxWorksheet.bracketMatches ti b = true := by
            simp [EstimatedTaxWorksheet.bracketMatches, hmax, hmin, hti, him]
          refine ⟨b, List.find?_cons_of_pos _ hmatch, ?_⟩
          have hmul : 0 ≤ (ti - lo) * b.tax_rate :=
            mul_nonneg (by linarith) hrate
          simp only [bracketTax, hbase, hmin]
          linarith
        · have hmatch : EstimatedTaxWorksheet.bracketMatches ti b = false := by
            simp [EstimatedTaxWorksheet.bracketMatches, hmax, him]
          obtain ⟨br, hfind, hbound⟩ :=
            ih m (base + (m - lo) * b.tax_rate) hchain ti (not_le.mp him)
          refine ⟨br, ?_, ?_⟩
          · rw [List.find?_cons_of_neg _ (by simp [hmatch])]
            exact hfind
          · have hmul : 0 ≤ (m - lo) * b.tax_rate :=
              mul_nonneg (by linarith) hrate
            linarith

theorem bracketChain_mono (bs : List TaxBracket) :
    ∀ lo base : ℚ, BracketChain lo base bs → ∀ a b : ℚ, lo < a → a ≤ b →
      ∃ bra brb,
        bs.find? (EstimatedTaxWorksheet.bracketMatches a) = some bra ∧
        bs.find? (EstimatedTaxWorksheet.bracketMatches b) = some brb ∧
        bracketTax bra a ≤ bracketTax brb b := by
  induction bs with
  | nil => intro lo base h; exact absurd h (by simp [BracketChain])
  | cons c rest ih =>
    intro lo base h a b ha hab
    simp only [BracketChain] at h
    obtain ⟨hmin, hbase, hrate, hrest⟩ := h
    have hb : lo < b := lt_of_lt_of_le ha hab
    cases rest with
    | nil =>
        have hmax : c.max_income = none := hrest
        have hma : EstimatedTaxWorksheet.bracketMatches a c = true := by
          simp [EstimatedTaxWorksheet.bracketMatches, hmax, hmin, ha]
        have hmb : EstimatedTaxWorksheet.bracketMatches b c = true := by
          simp [EstimatedTaxWorksheet.bracketMatches, hmax, hmin, hb]
        refine ⟨c, c, List.find?_cons_of_pos _ hma,
          List.find?_cons_of_pos _ hmb, ?_⟩
        have hmul : (a - lo) * c.tax_rate ≤ (b - lo) * c.tax_rate :=
          mul_le_mul_of_nonneg_right (by linarith) hrate
        simp only [bracketTax]
        linarith
    | cons r rs =>
        have hex : ∃ m, c.max_income = some m ∧ lo < m ∧
            BracketChain m (base + (m - lo) * c.tax_rate) (r :: rs) := hrest
        obtain ⟨m, hmax, hlom, hchain⟩ := hex
        by_cases hbm : b ≤ m
        · have ham : a ≤ m := le_trans hab hbm
          have hma : EstimatedTaxWorksheet.bracketMatches a c = true := by
            simp [EstimatedTaxWorksheet.bracketMatches, hmax, hmin, ha, ham]
          have hmb : EstimatedTaxWorksheet.bracketMatches b c = true := by
            simp [EstimatedTaxWorksheet.bracketMatches, hmax, hmin, hb, hbm]
          refine ⟨c, c, List.find?_cons_of_pos _ hma,
            List.find?_cons_of_pos _ hmb, ?_⟩
          have hmul : (a - lo) * c.tax_rate ≤ (b - lo) * c.tax_rate :=
            mul_le_mul_of_nonneg_right (by linarith) hrate
          simp only [bracketTax]
          linarith
        · by_cases ham : a ≤ m
          · have hma : EstimatedTaxWorksheet.bracketMatches a c = true := by
              simp [EstimatedTaxWorksheet.bracketMatches, hmax, hmin, ha, ham]
            have hmb : EstimatedTaxWorksheet.bracketMatches b c = false := by
              simp [EstimatedTaxWorksheet.bracketMatches, hmax, hbm]
            obtain ⟨brb, hfindb, hboundb⟩ :=
              bracketChain_find (r :: rs) m (base + (m - lo) * c.tax_rate)
                hchain b (not_le.mp hbm)
            refine ⟨c, brb, List.find?_cons_of_pos _ hma, ?_, ?_⟩
            · rw [List.find?_cons_of_neg _ (by simp [hmb])]
              exact hfindb
            · have hmul : (a - lo) * c.tax_rate ≤ (m - lo) * c.tax_rate :=
                mul_le_mul_of_nonneg_right (by linarith) hrate
              simp only [bracketTax, hbase, hmin] at hboundb ⊢
              linarith
          · have hma : EstimatedTaxWorksheet.bracketMatches a c = false := by
              simp [EstimatedTaxWorksheet.bracketMatches, hmax, ham]
            have hmb : EstimatedTaxWorksheet.bracketMatches b c = false := by
              simp [EstimatedTaxWorksheet.bracketMatches, hmax, hbm]
            obtain ⟨bra, brb, hfa, hfb, hle⟩ :=
              ih m (base + (m - lo) * c.tax_rate) hchain a b
                (not_le.mp ham) hab
            refine ⟨bra, brb, ?_, ?_, hle⟩
            · rw [List.find?_cons_of_neg _ (by simp [hma])]
              exact hfa
            · rw [List.find?_cons_of_neg _ (by simp [hmb])]
              exact hfb

/-- C4: `round_half_up` rounds every decimal to exactly two decimal places
using round-half-away-from-zero: the result is cent-exact and within half a
cent of the argument, an exact midpoint moves the magnitude away from zero in
both directions (`123.455 → 123.46`, `-123.455 → -123.46`), and values below
the midpoint round toward zero (`123.454 → 123.45`). -/
theorem claim_c4_round_half_up :
    common.round_half_up (123455 / 1000) = 12346 / 100 ∧
    common.round_half_up (-(123455 / 1000)) = -(12346 / 100) ∧
    common.round_half_up (123454 / 1000) = 12345 / 100 ∧
    (∀ x : ℚ, IsCent (common.round_half_up x)) ∧
    (∀ x : ℚ, |x - common.round_half_up x| ≤ 1 / 200) ∧
    (∀ x : ℚ, |x - common.round_half_up x| = 1 / 200 →
      |common.round_half_up x| = |x| + 1 / 200) := by
  have e1 : common.round_half_up (123455 / 1000) = 12346 / 100 := by
    rw [round_half_up_eq_of_nonneg (123455 / 1000) 12346 (by norm_num)
      (by norm_num) (by norm_num)]
    norm_num
  refine ⟨e1, ?_, ?_, isCent_round_half_up, round_half_up_close,
    fun x h => round_half_up_midpoint h⟩
  · rw [round_half_up_neg, e1]
  · rw [round_half_up_eq_of_nonneg (123454 / 1000) 12345 (by norm_num)
      (by norm_num) (by norm_num)]
    norm_num

/-- Witness for C4 at the concrete midpoint 0.005, which rounds away from
zero to 0.01. -/
theorem claim_c4_round_half_up_witness :
    |common.round_half_up (1 / 200)| = |(1 : ℚ) / 200| + 1 / 200 :=
  claim_c4_round_half_up.2.2.2.2.2 (1 / 200) (by
    rw [round_half_up_eq_of_nonneg (1 / 200) 1 (by norm_num) (by norm_num)
      (by norm_num)]
    norm_num)

/-- C8: calling `calculate` with an empty bracket slice returns the error
`NoTaxBrackets` immediately and produces no partial result. -/
theorem claim_c8_empty_brackets (input : EstimatedTaxWorksheetInput) :
    EstimatedTaxWorksheet.calculate [] input = .error .NoTaxBrackets := rfl

/-- C2 counterexample: at itemized deduction 0.004 the code selects the
itemized branch because the comparison uses the raw value, while rounding
each candidate to the cent before the comparison (as the claim states) would
make the rounded itemized candidate 0.00, not greater than zero, and select
the standard deduction. -/
theorem claim_c2_counterexample :
    EstimatedTaxWorksheet.determine_deduction (1 / 250) 15000 ≠
      determine_deduction_speced (1 / 250) 15000 := by
  have h1 : common.round_half_up (1 / 250) = 0 := by
    rw [round_half_up_eq_of_nonneg (1 / 250) 0 (by norm_num) (by norm_num)
      (by norm_num)]
    norm_num
  unfold EstimatedTaxWorksheet.determine_deduction determine_deduction_speced
  rw [if_pos (by norm_num : (1 : ℚ) / 250 > 0), h1,
    if_neg (by norm_num : ¬((0 : ℚ) > 0))]
  intro hcontra
  have hsnd := congrArg Prod.snd hcontra
  simp at hsnd

/-- C2 (amended): the deduction used by `calculate` is the rounded itemized
deduction (with `used_itemized_deduction = true`) when the raw
`itemized_deduction > 0`, and otherwise the rounded standard deduction (with
the flag false); the comparison uses the raw itemized value, and only the
selected candidate is rounded, after selection. -/
theorem claim_c2_deduction_selection (tax_brackets : List TaxBracket)
    (input : EstimatedTaxWorksheetInput) (r : EstimatedTaxWorksheetResult)
    (h : EstimatedTaxWorksheet.calculate tax_brackets input = .ok r) :
    r.used_itemized_deduction = decide (input.itemized_deduction > 0) ∧
    (∀ itemized standard : Decimal,
      EstimatedTaxWorksheet.determine_deduction itemized standard =
        ((if itemized > 0 then common.round_half_up itemized
          else common.round_half_up standard), decide (itemized > 0))) := by
  constructor
  · rw [calculate_eq] at h
    by_cases hemp : tax_brackets.isEmpty
    · rw [if_pos hemp] at h
      exact absurd h (by simp)
    · rw [if_neg hemp] at h
      cases hct : EstimatedTaxWorksheet.calculate_tax tax_brackets (pipe_ti input) with
      | error e => rw [hct] at h; exact absurd h (by simp)
      | ok ct =>
          rw [hct] at h
          simp only [Except.ok.injEq] at h
          subst h
          show (pipe_result input ct).used_itemized_deduction = _
          simp only [pipe_result]
          unfold EstimatedTaxWorksheet.determine_deduction
          split_ifs with hh <;> simp [hh]
  · intro itemized standard
    unfold EstimatedTaxWorksheet.determine_deduction
    split_ifs with hh <;> simp [hh]

/-- Witness for C2 (amended) at a concrete input: the single-bracket table
with the all-zero input succeeds, and the selection equation is evaluated at
itemized 5, standard 3. -/
theorem claim_c2_deduction_selection_witness :
    EstimatedTaxWorksheet.determine_deduction 5 3 =
      ((if (5 : ℚ) > 0 then common.round_half_up 5 else common.round_half_up 3),
        decide ((5 : ℚ) > 0)) := by
  have hti : pipe_ti zeroInput = 0 := by
    norm_num [pipe_ti, EstimatedTaxWorksheet.taxable_income,
      EstimatedTaxWorksheet.total_deductions,
      EstimatedTaxWorksheet.determine_deduction, zeroInput,
      round_half_up_zero, common.max]
  have hcalc : EstimatedTaxWorksheet.calculate [singleBracket] zeroInput =
      .ok { taxable_income := 0, calculated_tax := 0, total_estimated_tax := 0
            required_annual_payment := 0, underpayment := 0
            used_itemized_deduction := false
            estimated_payments_required := false } := by
    rw [calculate_eq]
    rw [if_neg (by simp)]
    have hct : EstimatedTaxWorksheet.calculate_tax [singleBracket] (pipe_ti zeroInput) =
        .ok 0 := by
      rw [hti]
      simp [EstimatedTaxWorksheet.calculate_tax]
    rw [hct]
    simp only [zeroInput] at hti
    norm_num [pipe_result, hti, zeroInput,
      EstimatedTaxWorksheet.determine_deduction,
      EstimatedTaxWorksheet.tax_after_credits,
      EstimatedTaxWorksheet.total_tax_before_credits,
      EstimatedTaxWorksheet.total_estimated_tax,
      EstimatedTaxWorksheet.total_tax,
      EstimatedTaxWorksheet.required_annual_payment,
      EstimatedTaxWorksheet.current_year_factor,
      EstimatedTaxWorksheet.underpayment,
      EstimatedTaxWorksheet.threshold_amount,
      EstimatedTaxWorksheet.are_estimated_payments_required,
      round_half_up_zero, common.max]
  exact (claim_c2_deduction_selection [singleBracket] zeroInput _ hcalc).2 5 3

/-- C9: `SeWorksheetConfig::validate` succeeds exactly when all six range
constraints hold, and when several fields are out of range the single error
reported follows the fixed check order: net earnings factor, social security
rate, Medicare rate, deduction factor, wage maximum, minimum SE threshold. -/
theorem claim_c9_validate (c : SeWorksheetConfig) :
    (c.validate = .ok () ↔
      (0 < c.net_earnings_factor ∧ c.net_earnings_factor ≤ 1 ∧
       0 ≤ c.ss_tax_rate ∧ c.ss_tax_rate ≤ 1 ∧
       0 ≤ c.medicare_tax_rate ∧ c.medicare_tax_rate ≤ 1 ∧
       0 ≤ c.deduction_factor ∧ c.deduction_factor ≤ 1 ∧
       0 < c.ss_wage_max ∧ 0 ≤ c.min_se_threshold)) ∧
    (¬(0 < c.net_earnings_factor ∧ c.net_earnings_factor ≤ 1) →
      c.validate = .error (.InvalidNetEarningsFactor c.net_earnings_factor)) ∧
    ((0 < c.net_earnings_factor ∧ c.net_earnings_factor ≤ 1) →
      ¬(0 ≤ c.ss_tax_rate ∧ c.ss_tax_rate ≤ 1) →
      c.validate = .error (.InvalidSocialSecurityRate c.ss_tax_rate)) ∧
    ((0 < c.net_earnings_factor ∧ c.net_earnings_factor ≤ 1) →
      (0 ≤ c.ss_tax_rate ∧ c.ss_tax_rate ≤ 1) →
      ¬(0 ≤ c.medicare_tax_rate ∧ c.medicare_tax_rate ≤ 1) →
      c.validate = .error (.InvalidMedicareRate c.medicare_tax_rate)) ∧
    ((0 < c.net_earnings_factor ∧ c.net_earnings_factor ≤ 1) →
      (0 ≤ c.ss_tax_rate ∧ c.ss_tax_rate ≤ 1) →
      (0 ≤ c.medicare_tax_rate ∧ c.medicare_tax_rate ≤ 1) →
      ¬(0 ≤ c.deduction_factor ∧ c.deduction_factor ≤ 1) →
      c.validate = .error (.InvalidDeductionFactor c.deduction_factor)) ∧
    ((0 < c.net_earnings_factor ∧ c.net_earnings_factor ≤ 1) →
      (0 ≤ c.ss_tax_rate ∧ c.ss_tax_rate ≤ 1) →
      (0 ≤ c.medicare_tax_rate ∧ c.medicare_tax_rate ≤ 1) →
      (0 ≤ c.deduction_factor ∧ c.deduction_factor ≤ 1) →
      ¬(0 < c.ss_wage_max) →
      c.validate = .error (.InvalidSsWageMax c.ss_wage_max)) ∧
    ((0 < c.net_earnings_factor ∧ c.net_earnings_factor ≤ 1) →
      (0 ≤ c.ss_tax_rate ∧ c.ss_tax_rate ≤ 1) →
      (0 ≤ c.medicare_tax_rate ∧ c.medicare_tax_rate ≤ 1) →
      (0 ≤ c.deduction_factor ∧ c.deduction_factor ≤ 1) →
      0 < c.ss_wage_max → ¬(0 ≤ c.min_se_threshold) →
      c.validate = .error (.InvalidMinSeThreshold c.min_se_threshold)) := by
  refine ⟨validate_ok_iff c, ?_, ?_, ?_, ?_, ?_, ?_⟩
  · intro h1
    unfold SeWorksheetConfig.validate
    rw [if_pos (by
      rcases not_and_or.mp h1 with h | h
      · exact Or.inl (not_lt.mp h)
      · exact Or.inr (not_le.mp h))]
  · intro h1 h2
    unfold SeWorksheetConfig.validate
    rw [if_neg (by push_neg; exact h1), if_pos (by
      rcases not_and_or.mp h2 with h | h
      · exact Or.inl (not_le.mp h)
      · exact Or.inr (not_le.mp h))]
  · intro h1 h2 h3
    unfold SeWorksheetConfig.validate
    rw [if_neg (by push_neg; exact h1), if_neg (by push_neg; exact h2),
      if_pos (by
        rcases not_and_or.mp h3 with h | h
        · exact Or.inl (not_le.mp h)
        · exact Or.inr (not_le.mp h))]
  · intro h1 h2 h3 h4
    unfold SeWorksheetConfig.validate
    rw [if_neg (by push_neg; exact h1), if_neg (by push_neg; exact h2),
      if_neg (by push_neg; exact h3), if_pos (by
        rcases not_and_or.mp h4 with h | h
        · exact Or.inl (not_le.mp h)
        · exact Or.inr (not_le.mp h))]
  · intro h1 h2 h3 h4 h5
    unfold SeWorksheetConfig.validate
    rw [if_neg (by push_neg; exact h1), if_neg (by push_neg; exact h2),
      if_neg (by push_neg; exact h3), if_neg (by push_neg; exact h4),
      if_pos (not_lt.mp h5)]
  · intro h1 h2 h3 h4 h5 h6
    unfold SeWorksheetConfig.validate
    rw [if_neg (by push_neg; exact h1), if_neg (by push_neg; exact h2),
      if_neg (by push_neg; exact h3), if_neg (by push_neg; exact h4),
      if_neg (not_le.mpr h5), if_pos (not_le.mp h6)]

/-- Witness for C9: a configuration with both a negative wage maximum and a
negative minimum threshold reports `InvalidSsWageMax`, the earlier check. -/
theorem claim_c9_validate_witness :
    doublyInvalidCfg.validate = .error (.InvalidSsWageMax (-1000)) := by
  have h := (claim_c9_validate doublyInvalidCfg).2.2.2.2.2.1
    (by norm_num [doublyInvalidCfg]) (by norm_num [doublyInvalidCfg])
    (by norm_num [doublyInvalidCfg]) (by norm_num [doublyInvalidCfg])
    (by norm_num [doublyInvalidCfg])
  simpa [doublyInvalidCfg] using h

theorem calculate_ok_elim (tax_brackets : List TaxBracket)
    (input : EstimatedTaxWorksheetInput) (r : EstimatedTaxWorksheetResult)
    (h : EstimatedTaxWorksheet.calculate tax_brackets input = .ok r) :
    ∃ ct, EstimatedTaxWorksheet.calculate_tax tax_brackets (pipe_ti input) =
        .ok ct ∧ r = pipe_result input ct := by
  rw [calculate_eq] at h
  by_cases hemp : tax_brackets.isEmpty
  · rw [if_pos hemp] at h
    exact absurd h (by simp)
  · rw [if_neg hemp] at h
    cases hct : EstimatedTaxWorksheet.calculate_tax tax_brackets (pipe_ti input) with
    | error e => rw [hct] at h; exact absurd h (by simp)
    | ok ct =>
        rw [hct] at h
        simp only [Except.ok.injEq] at h
        exact ⟨ct, rfl, h.symm⟩

/-- C5: on every successful `calculate`, `estimated_payments_required` holds
exactly when both `underpayment > 0` and the threshold amount (total estimated
tax minus withholding, floored at zero) is at least the required payment
threshold; when the threshold amount falls below the required threshold the
flag is false even if some underpayment exists. -/
theorem claim_c5_payments_required (tax_brackets : List TaxBracket)
    (input : EstimatedTaxWorksheetInput) (r : EstimatedTaxWorksheetResult)
    (h : EstimatedTaxWorksheet.calculate tax_brackets input = .ok r) :
    (r.estimated_payments_required = true ↔
      (0 < r.underpayment ∧
        input.required_payment_threshold ≤
          EstimatedTaxWorksheet.threshold_amount r.total_estimated_tax
            input.withholding)) ∧
    (EstimatedTaxWorksheet.threshold_amount r.total_estimated_tax
        input.withholding < input.required_payment_threshold →
      r.estimated_payments_required = false) := by
  obtain ⟨ct, hct, rfl⟩ := calculate_ok_elim tax_brackets input r h
  simp only [pipe_result]
  constructor
  · simp [EstimatedTaxWorksheet.are_estimated_payments_required, and_comm]
  · intro hlt
    simp [EstimatedTaxWorksheet.are_estimated_payments_required,
      not_le.mpr hlt]

/-- Witness for C5 on the concrete single-bracket table with the all-zero
input and a threshold of 1: the calculation succeeds and no payments are
required. -/
theorem claim_c5_payments_required_witness :
    EstimatedTaxWorksheetResult.estimated_payments_required
      { taxable_income := 0, calculated_tax := 0, total_estimated_tax := 0
        required_annual_payment := 0, underpayment := 0
        used_itemized_deduction := false
        estimated_payments_required := false } = false := by
  have hti : pipe_ti { zeroInput with required_payment_threshold := 1 } = 0 := by
    norm_num [pipe_ti, EstimatedTaxWorksheet.taxable_income,
      EstimatedTaxWorksheet.total_deductions,
      EstimatedTaxWorksheet.determine_deduction, zeroInput,
      round_half_up_zero, common.max]
  have hcalc : EstimatedTaxWorksheet.calculate [singleBracket]
      { zeroInput with required_payment_threshold := 1 } =
      .ok { taxable_income := 0, calculated_tax := 0, total_estimated_tax := 0
            required_annual_payment := 0, underpayment := 0
            used_itemized_deduction := false
            estimated_payments_required := false } := by
    rw [calculate_eq]
    rw [if_neg (by simp)]
    have hct : EstimatedTaxWorksheet.calculate_tax [singleBracket]
        (pipe_ti { zeroInput with required_payment_threshold := 1 }) =
        .ok 0 := by
      rw [hti]
      simp [EstimatedTaxWorksheet.calculate_tax]
    rw [hct]
    simp only [zeroInput] at hti
    norm_num [pipe_result, hti, zeroInput,
      EstimatedTaxWorksheet.determine_deduction,
      EstimatedTaxWorksheet.tax_after_credits,
      EstimatedTaxWorksheet.total_tax_before_credits,
      EstimatedTaxWorksheet.total_estimated_tax,
      EstimatedTaxWorksheet.total_tax,
      EstimatedTaxWorksheet.required_annual_payment,
      EstimatedTaxWorksheet.current_year_factor,
      EstimatedTaxWorksheet.underpayment,
      EstimatedTaxWorksheet.threshold_amount,
      EstimatedTaxWorksheet.are_estimated_payments_required,
      round_half_up_zero, common.max]
  refine (claim_c5_payments_required [singleBracket]
    { zeroInput with required_payment_threshold := 1 } _ hcalc).2 ?_
  have hta : EstimatedTaxWorksheet.threshold_amount (0 : ℚ) 0 = 0 := by
    norm_num [EstimatedTaxWorksheet.threshold_amount, round_half_up_zero,
      common.max]
  show EstimatedTaxWorksheet.threshold_amount (0 : ℚ) 0 <
    ({ zeroInput with required_payment_threshold := 1 } :
      EstimatedTaxWorksheetInput).required_payment_threshold
  rw [hta]
  norm_num [zeroInput]

/-- C6: on every successful `calculate`, the result fields `taxable_income`,
`total_estimated_tax` and `underpayment` are non-negative regardless of input
sign, and the intermediate stages `tax_after_credits` and `threshold_amount`
are non-negative on all arguments. -/
theorem claim_c6_nonnegativity (tax_brackets : List TaxBracket)
    (input : EstimatedTaxWorksheetInput) (r : EstimatedTaxWorksheetResult)
    (h : EstimatedTaxWorksheet.calculate tax_brackets input = .ok r) :
    0 ≤ r.taxable_income ∧ 0 ≤ r.total_estimated_tax ∧ 0 ≤ r.underpayment ∧
    (∀ t c : Decimal, 0 ≤ EstimatedTaxWorksheet.tax_after_credits t c) ∧
    (∀ t w : Decimal, 0 ≤ EstimatedTaxWorksheet.threshold_amount t w) := by
  obtain ⟨ct, hct, rfl⟩ := calculate_ok_elim tax_brackets input r h
  simp only [pipe_result]
  refine ⟨?_, ?_, ?_, ?_, ?_⟩
  · simp only [pipe_ti, EstimatedTaxWorksheet.taxable_income]
    exact common_max_left_nonneg _ _ (le_refl 0)
  · simp only [EstimatedTaxWorksheet.total_estimated_tax]
    exact common_max_left_nonneg _ _ (le_refl 0)
  · simp only [EstimatedTaxWorksheet.underpayment]
    exact common_max_left_nonneg _ _ (le_refl 0)
  · intro t c
    simp only [EstimatedTaxWorksheet.tax_after_credits]
    exact common_max_left_nonneg _ _ (le_refl 0)
  · intro t w
    simp only [EstimatedTaxWorksheet.threshold_amount]
    exact common_max_left_nonneg _ _ (le_refl 0)

/-- Witness for C6 on the concrete single-bracket table with the all-zero
input. -/
theorem claim_c6_nonnegativity_witness :
    (0 : ℚ) ≤ EstimatedTaxWorksheetResult.taxable_income
      { taxable_income := 0, calculated_tax := 0, total_estimated_tax := 0
        required_annual_payment := 0, underpayment := 0
        used_itemized_deduction := false
        estimated_payments_required := false } := by
  have hti : pipe_ti zeroInput = 0 := by
    norm_num [pipe_ti, EstimatedTaxWorksheet.taxable_income,
      EstimatedTaxWorksheet.total_deductions,
      EstimatedTaxWorksheet.determine_deduction, zeroInput,
      round_half_up_zero, common.max]
  have hcalc : EstimatedTaxWorksheet.calculate [singleBracket] zeroInput =
      .ok { taxable_income := 0, calculated_tax := 0, total_estimated_tax := 0
            required_annual_payment := 0, underpayment := 0
            used_itemized_deduction := false
            estimated_payments_required := false } := by
    rw [calculate_eq]
    rw [if_neg (by simp)]
    have hct : EstimatedTaxWorksheet.calculate_tax [singleBracket]
        (pipe_ti zeroInput) = .ok 0 := by
      rw [hti]
      simp [EstimatedTaxWorksheet.calculate_tax]
    rw [hct]
    simp only [zeroInput] at hti
    norm_num [pipe_result, hti, zeroInput,
      EstimatedTaxWorksheet.determine_deduction,
      EstimatedTaxWorksheet.tax_after_credits,
      EstimatedTaxWorksheet.total_tax_before_credits,
      EstimatedTaxWorksheet.total_estimated_tax,
      EstimatedTaxWorksheet.total_tax,
      EstimatedTaxWorksheet.required_annual_payment,
      EstimatedTaxWorksheet.current_year_factor,
      EstimatedTaxWorksheet.underpayment,
      EstimatedTaxWorksheet.threshold_amount,
      EstimatedTaxWorksheet.are_estimated_payments_required,
      round_half_up_zero, common.max]
  exact (claim_c6_nonnegativity [singleBracket] zeroInput _ hcalc).1

/-- C3: for a valid SE configuration, when the rounded combined income is at
or below the minimum threshold (inclusive, covering negative income) the
calculation succeeds with `below_threshold = true` and every monetary field
except `combined_se_income` equal to zero; when the rounded combined income
exceeds the threshold, `below_threshold = false`. -/
theorem claim_c3_below_threshold (c : SeWorksheetConfig)
    (se_income crp_payments wages : Decimal) (hv : c.validate = .ok ()) :
    (SeWorksheet.combined_se_income se_income crp_payments ≤
        c.min_se_threshold →
      SeWorksheet.calculate c se_income crp_payments wages =
        .ok { combined_se_income :=
                SeWorksheet.combined_se_income se_income crp_payments
              net_earnings := 0, medicare_tax := 0, ss_taxable_earnings := 0
              social_security_tax := 0, self_employment_tax := 0
              se_tax_deduction := 0, below_threshold := true }) ∧
    (c.min_se_threshold <
        SeWorksheet.combined_se_income se_income crp_payments →
      ∃ res, SeWorksheet.calculate c se_income crp_payments wages = .ok res ∧
        res.below_threshold = false ∧
        res.combined_se_income =
          SeWorksheet.combined_se_income se_income crp_payments) := by
  constructor
  · intro hle
    simp only [SeWorksheet.calculate, hv]
    rw [if_pos hle]
    rfl
  · intro hlt
    simp only [SeWorksheet.calculate, hv]
    rw [if_neg (not_le.mpr hlt)]
    exact ⟨_, rfl, rfl, rfl⟩

/-- Witness for C3: the 2025 configuration with zero income is below the
400-dollar threshold and yields the zero result. -/
theorem claim_c3_below_threshold_witness :
    SeWorksheet.calculate cfg2025 0 0 0 =
      .ok { combined_se_income := 0, net_earnings := 0, medicare_tax := 0
            ss_taxable_earnings := 0, social_security_tax := 0
            self_employment_tax := 0, se_tax_deduction := 0
            below_threshold := true } := by
  have hv : cfg2025.validate = .ok () :=
    (validate_ok_iff cfg2025).mpr (by norm_num [cfg2025])
  have hc : SeWorksheet.combined_se_income 0 0 = 0 := by
    norm_num [SeWorksheet.combined_se_income, round_half_up_zero]
  have h := (claim_c3_below_threshold cfg2025 0 0 0 hv).1
    (by rw [hc]; norm_num [cfg2025])
  rw [hc] at h
  exact h

/-- C1: for every positive taxable income, `calculate_tax` selects the first
bracket in slice order with `taxable_income > min_income` and
(`max_income` absent or `taxable_income ≤ max_income`), returning
`round_half_up (base_tax + (taxable_income - min_income) * tax_rate)`; when
no bracket matches it fails with `NoMatchingBracket`.  Boundaries are
lower-exclusive and upper-inclusive: an income exactly equal to a bracket's
`max_income` matches that lower bracket and not the adjacent upper one, while
one cent more matches the upper bracket and not the lower. -/
theorem claim_c1_calculate_tax (tax_brackets : List TaxBracket) :
    (∀ ti : Decimal, 0 < ti → ∀ i : ℕ, ∀ hi : i < tax_brackets.length,
      EstimatedTaxWorksheet.bracketMatches ti (tax_brackets.get ⟨i, hi⟩) =
        true →
      (∀ j : ℕ, ∀ hj : j < i,
        EstimatedTaxWorksheet.bracketMatches ti
          (tax_brackets.get ⟨j, Nat.lt_trans hj hi⟩) = false) →
      EstimatedTaxWorksheet.calculate_tax tax_brackets ti =
        .ok (common.round_half_up
          ((tax_brackets.get ⟨i, hi⟩).base_tax +
            (ti - (tax_brackets.get ⟨i, hi⟩).min_income) *
              (tax_brackets.get ⟨i, hi⟩).tax_rate))) ∧
    (∀ ti : Decimal, 0 < ti →
      (∀ b ∈ tax_brackets,
        EstimatedTaxWorksheet.bracketMatches ti b = false) →
      EstimatedTaxWorksheet.calculate_tax tax_brackets ti =
        .error (.NoMatchingBracket ti)) ∧
    (∀ lower upper : TaxBracket, ∀ m : Decimal,
      lower.max_income = some m → upper.min_income = m →
      lower.min_income < m →
      EstimatedTaxWorksheet.bracketMatches m lower = true ∧
      EstimatedTaxWorksheet.bracketMatches m upper = false ∧
      EstimatedTaxWorksheet.bracketMatches (m + 1 / 100) lower = false ∧
      ((upper.max_income = none ∨
          ∃ m2, upper.max_income = some m2 ∧ m + 1 / 100 ≤ m2) →
        EstimatedTaxWorksheet.bracketMatches (m + 1 / 100) upper = true)) := by
  refine ⟨?_, ?_, ?_⟩
  · intro ti hti i hi hm hp
    unfold EstimatedTaxWorksheet.calculate_tax
    rw [if_neg (not_le.mpr hti),
      find_first_of (EstimatedTaxWorksheet.bracketMatches ti) tax_brackets
        i hi hm hp]
  · intro ti hti hall
    unfold EstimatedTaxWorksheet.calculate_tax
    rw [if_neg (not_le.mpr hti),
      List.find?_eq_none.mpr (fun b hb => by simp [hall b hb])]
  · intro lower upper m hlmax humin hlmin
    have hnle : ¬(m + 1 / 100 ≤ m) := by linarith
    refine ⟨?_, ?_, ?_, ?_⟩
    · simp [EstimatedTaxWorksheet.bracketMatches, hlmax, hlmin]
    · simp [EstimatedTaxWorksheet.bracketMatches, humin]
    · simp [EstimatedTaxWorksheet.bracketMatches, hlmax, hnle]
    · rintro (hnone | ⟨m2, hm2, hle⟩)
      · simp [EstimatedTaxWorksheet.bracketMatches, humin, hnone]
      · simp [EstimatedTaxWorksheet.bracketMatches, humin, hm2]
        linarith

/-- Witness for C1 on a concrete two-bracket table at income 30, which falls
in the top bracket and yields tax 5. -/
theorem claim_c1_calculate_tax_witness :
    EstimatedTaxWorksheet.calculate_tax [lowBracket, topBracket] 30 =
      .ok 5 := by
  have hm : EstimatedTaxWorksheet.bracketMatches 30
      ([lowBracket, topBracket].get ⟨1, by norm_num⟩) = true := by
    show EstimatedTaxWorksheet.bracketMatches 30 topBracket = true
    simp [EstimatedTaxWorksheet.bracketMatches, topBracket]
    norm_num
  have hp : ∀ j : ℕ, ∀ hj : j < 1,
      EstimatedTaxWorksheet.bracketMatches 30
        ([lowBracket, topBracket].get
          ⟨j, Nat.lt_trans hj (by norm_num)⟩) = false := by
    intro j hj
    have hj0 : j = 0 := by omega
    subst hj0
    show EstimatedTaxWorksheet.bracketMatches 30 lowBracket = false
    simp [EstimatedTaxWorksheet.bracketMatches, lowBracket]
    norm_num
  have h := (claim_c1_calculate_tax [lowBracket, topBracket]).1 30
    (by norm_num) 1 (by norm_num) hm hp
  rw [h]
  have harg : ([lowBracket, topBracket].get ⟨1, by norm_num⟩).base_tax +
      ((30 : ℚ) - ([lowBracket, topBracket].get ⟨1, by norm_num⟩).min_income) *
        ([lowBracket, topBracket].get ⟨1, by norm_num⟩).tax_rate =
      ((5 : ℤ) : ℚ) := by
    show topBracket.base_tax + ((30 : ℚ) - topBracket.min_income) *
      topBracket.tax_rate = ((5 : ℤ) : ℚ)
    norm_num [topBracket]
  rw [harg, round_half_up_int]
  norm_num

/-- C7: under the bracket-table invariant (contiguous ascending partition of
the non-negative half-line with cumulative base taxes and non-negative
rates), `calculate_tax` is monotone in taxable income on all successful
evaluations; and for a fixed tax before credits, increasing credits never
increases `tax_after_credits`, which is floored at zero. -/
theorem claim_c7_monotonicity (tax_brackets : List TaxBracket)
    (hinv : BracketChain 0 0 tax_brackets) :
    (∀ a b ta tb : Decimal, a ≤ b →
      EstimatedTaxWorksheet.calculate_tax tax_brackets a = .ok ta →
      EstimatedTaxWorksheet.calculate_tax tax_brackets b = .ok tb →
      ta ≤ tb) ∧
    (∀ t c1 c2 : Decimal, c1 ≤ c2 →
      EstimatedTaxWorksheet.tax_after_credits t c2 ≤
        EstimatedTaxWorksheet.tax_after_credits t c1) ∧
    (∀ t c : Decimal, 0 ≤ EstimatedTaxWorksheet.tax_after_credits t c) := by
  refine ⟨?_, ?_, ?_⟩
  · intro a b ta tb hab hta htb
    unfold EstimatedTaxWorksheet.calculate_tax at hta htb
    by_cases ha0 : a ≤ 0
    · rw [if_pos ha0] at hta
      simp only [Except.ok.injEq] at hta
      by_cases hb0 : b ≤ 0
      · rw [if_pos hb0] at htb
        simp only [Except.ok.injEq] at htb
        rw [← hta, ← htb]
      · rw [if_neg hb0] at htb
        obtain ⟨br, hfind, hbound⟩ :=
          bracketChain_find tax_brackets 0 0 hinv b (not_le.mp hb0)
        rw [hfind] at htb
        simp only [Except.ok.injEq] at htb
        simp only [bracketTax] at hbound
        rw [← hta, ← htb]
        exact round_half_up_nonneg hbound
    · have hb0 : ¬b ≤ 0 := fun hb => ha0 (le_trans hab hb)
      rw [if_neg ha0] at hta
      rw [if_neg hb0] at htb
      obtain ⟨bra, brb, hfa, hfb, hle⟩ :=
        bracketChain_mono tax_brackets 0 0 hinv a b (not_le.mp ha0) hab
      rw [hfa] at hta
      rw [hfb] at htb
      simp only [Except.ok.injEq] at hta htb
      simp only [bracketTax] at hle
      rw [← hta, ← htb]
      exact round_half_up_mono hle
  · intro t c1 c2 hc
    unfold EstimatedTaxWorksheet.tax_after_credits
    exact common_max_mono_left 0 (round_half_up_mono (by linarith))
  · intro t c
    unfold EstimatedTaxWorksheet.tax_after_credits
    exact common_max_left_nonneg _ _ (le_refl 0)

/-- Witness for C7: the two-bracket example table satisfies the invariant and
monotonicity applies at incomes 5 and 30; credits flooring is observed at
concrete arguments. -/
theorem claim_c7_monotonicity_witness :
    0 ≤ EstimatedTaxWorksheet.tax_after_credits 100 20 := by
  have hchain : BracketChain 0 0 [lowBracket, topBracket] := by
    exact ⟨rfl, rfl, by norm_num [lowBracket], 10, rfl, by norm_num, rfl,
      by norm_num [lowBracket, topBracket], by norm_num [topBracket], rfl⟩
  exact (claim_c7_monotonicity [lowBracket, topBracket] hchain).2.2 100 20

/-- C10: on every successful SE calculation that is not below the threshold,
the total SE tax equals Medicare tax plus Social Security tax exactly (the
final rounding is a no-op on the cent-exact addends), the SE deduction is the
rounded product of the SE tax and the deduction factor, and the SS-taxable
earnings never exceed the net earnings. -/
theorem claim_c10_se_identities (c : SeWorksheetConfig)
    (se_income crp_payments wages : Decimal) (r : SeWorksheetResult)
    (h : SeWorksheet.calculate c se_income crp_payments wages = .ok r)
    (hbt : r.below_threshold = false) :
    r.self_employment_tax = r.medicare_tax + r.social_security_tax ∧
    r.se_tax_deduction =
      common.round_half_up (r.self_employment_tax * c.deduction_factor) ∧
    r.ss_taxable_earnings ≤ r.net_earnings := by
  cases hv : c.validate with
  | error e =>
      rw [SeWorksheet.calculate, hv] at h
      exact absurd h (by simp)
  | ok u =>
      cases u
      simp only [SeWorksheet.calculate, hv] at h
      by_cases hth : SeWorksheet.combined_se_income se_income crp_payments ≤
          c.min_se_threshold
      · rw [if_pos hth] at h
        simp only [Except.ok.injEq] at h
        rw [← h] at hbt
        simp [SeWorksheetResult.belowThreshold] at hbt
      · rw [if_neg hth] at h
        simp only [Except.ok.injEq] at h
        obtain ⟨hnef, -, -, -, -, -, -, -, -, hthr0⟩ :=
          (validate_ok_iff c).mp hv
        have hcomb : 0 < SeWorksheet.combined_se_income se_income crp_payments :=
          lt_of_le_of_lt hthr0 (not_le.mp hth)
        have hnet0 : 0 ≤ SeWorksheet.net_earnings_from_self_employment c
            (SeWorksheet.combined_se_income se_income crp_payments) := by
          unfold SeWorksheet.net_earnings_from_self_employment
          exact round_half_up_nonneg (mul_nonneg hcomb.le hnef.le)
        have hmtC : ∀ x : Decimal, IsCent (SeWorksheet.medicare_tax c x) := by
          intro x
          unfold SeWorksheet.medicare_tax
          split
          · exact isCent_zero
          · exact isCent_round_half_up _
        have hsstC : ∀ x : Decimal,
            IsCent (SeWorksheet.social_security_tax c x) :=
          fun x => isCent_round_half_up _
        rw [← h]
        refine ⟨?_, rfl, ?_⟩
        · show SeWorksheet.total_self_employment_tax _ _ = _
          unfold SeWorksheet.total_self_employment_tax
          exact round_half_up_of_isCent (isCent_add (hmtC _) (hsstC _))
        · show SeWorksheet.ss_taxable_earnings _ _ ≤ _
          unfold SeWorksheet.ss_taxable_earnings
          split
          · exact hnet0
          · have hmin := round_half_up_mono
              (min_le_left
                (SeWorksheet.net_earnings_from_self_employment c
                  (SeWorksheet.combined_se_income se_income crp_payments))
                (SeWorksheet.remaining_ss_wage_base c wages))
            have hfix : common.round_half_up
                (SeWorksheet.net_earnings_from_self_employment c
                  (SeWorksheet.combined_se_income se_income crp_payments)) =
                SeWorksheet.net_earnings_from_self_employment c
                  (SeWorksheet.combined_se_income se_income crp_payments) := by
              unfold SeWorksheet.net_earnings_from_self_employment
              exact round_half_up_of_isCent (isCent_round_half_up _)
            rw [hfix] at hmin
            exact hmin

/-- Witness for C10: a concrete SE calculation (income 1000 under the simple
configuration) succeeds above threshold with SE tax 100 = 50 + 50, deduction
50, and SS-taxable earnings equal to net earnings. -/
theorem claim_c10_se_identities_witness :
    (100 : ℚ) = 50 + 50 ∧
    (50 : ℚ) = common.round_half_up (100 * simpleSeCfg.deduction_factor) ∧
    (500 : ℚ) ≤ 500 := by
  have hval : simpleSeCfg.validate = .ok () :=
    (validate_ok_iff simpleSeCfg).mpr (by norm_num [simpleSeCfg])
  have hc : SeWorksheet.combined_se_income 1000 0 = 1000 := by
    unfold SeWorksheet.combined_se_income
    rw [show (1000 : ℚ) + 0 = 1000 by norm_num]
    exact round_half_up_of_isCent ⟨100000, by norm_num⟩
  have hnet : SeWorksheet.net_earnings_from_self_employment simpleSeCfg 1000 =
      500 := by
    unfold SeWorksheet.net_earnings_from_self_employment
    rw [show (1000 : ℚ) * simpleSeCfg.net_earnings_factor = 500 by
      norm_num [simpleSeCfg]]
    exact round_half_up_of_isCent ⟨50000, by norm_num⟩
  have hmt : SeWorksheet.medicare_tax simpleSeCfg 500 = 50 := by
    unfold SeWorksheet.medicare_tax
    rw [if_neg (by norm_num)]
    rw [show (500 : ℚ) * simpleSeCfg.medicare_tax_rate = 50 by
      norm_num [simpleSeCfg]]
    exact round_half_up_of_isCent ⟨5000, by norm_num⟩
  have hrem : SeWorksheet.remaining_ss_wage_base simpleSeCfg 0 = 100000 := by
    unfold SeWorksheet.remaining_ss_wage_base
    rw [if_neg (by norm_num [simpleSeCfg])]
    rw [show simpleSeCfg.ss_wage_max - (0 : ℚ) = 100000 by
      norm_num [simpleSeCfg]]
    exact round_half_up_of_isCent ⟨10000000, by norm_num⟩
  have hsste : SeWorksheet.ss_taxable_earnings 500 100000 = 500 := by
    unfold SeWorksheet.ss_taxable_earnings
    rw [if_neg (by norm_num)]
    rw [min_eq_left (by norm_num : (500 : ℚ) ≤ 100000)]
    exact round_half_up_of_isCent ⟨50000, by norm_num⟩
  have hsst : SeWorksheet.social_security_tax simpleSeCfg 500 = 50 := by
    unfold SeWorksheet.social_security_tax
    rw [show (500 : ℚ) * simpleSeCfg.ss_tax_rate = 50 by
      norm_num [simpleSeCfg]]
    exact round_half_up_of_isCent ⟨5000, by norm_num⟩
  have hset : SeWorksheet.total_self_employment_tax 50 50 = 100 := by
    unfold SeWorksheet.total_self_employment_tax
    rw [show (50 : ℚ) + 50 = 100 by norm_num]
    exact round_half_up_of_isCent ⟨10000, by norm_num⟩
  have hded : SeWorksheet.se_tax_deduction simpleSeCfg 100 = 50 := by
    unfold SeWorksheet.se_tax_deduction
    rw [show (100 : ℚ) * simpleSeCfg.deduction_factor = 50 by
      norm_num [simpleSeCfg]]
    exact round_half_up_of_isCent ⟨5000, by norm_num⟩
  have hcalc : SeWorksheet.calculate simpleSeCfg 1000 0 0 =
      .ok { combined_se_income := 1000, net_earnings := 500, medicare_tax := 50
            ss_taxable_earnings := 500, social_security_tax := 50
            self_employment_tax := 100, se_tax_deduction := 50
            below_threshold := false } := by
    simp only [SeWorksheet.calculate, hval, hc]
    rw [if_neg (by norm_num [simpleSeCfg])]
    simp only [hnet, hmt, hrem, hsste, hsst, hset, hded]
  exact claim_c10_se_identities simpleSeCfg 1000 0 0
    { combined_se_income := 1000, net_earnings := 500, medicare_tax := 50
      ss_taxable_earnings := 500, social_security_tax := 50
      self_employment_tax := 100, se_tax_deduction := 50
      below_threshold := false } hcalc rfl
